import Mathlib

/-!
Verification of the flask-mailing message pipeline.

This file gives a shallow embedding of the core of the flask-mailing
repository — the message-descriptor validation (`flask_mailing/schemas.py`),
the MIME builder (`flask_mailing/msg.py`), the facade preparation step
(`flask_mailing/mail.py`) and the SMTP connection lifecycle
(`flask_mailing/connection.py`) — and proves properties of that embedding.

Conventions of the embedding:
* Python dynamic values that flow through the descriptor fields
  (`body`, `template_body`, `template_params`, `html`) are modelled by the
  inductive type `PyVal` (None, str, list, dict); Python truthiness is the
  function `truthy`.
* Fallible Python code (validators that raise, the MIME builder that can
  raise ValueError/TypeError) is modelled with `Except String`.
* The ambient filesystem, the mimetype guesser and path resolution are
  modelled by an explicit environment record `Env`; the embedded functions
  are parametric in it.
* Whitespace-stripping of plain string fields (ConfigDict
  str_strip_whitespace) is omitted: every verified statement quantifies over
  already-validated field values, for which stripping is the identity.
-/

/-- Universe of Python values that can appear in the content-bearing fields
of a `Message` (`body`, `template_body`, `template_params`, `html`), which
are typed `str | list | dict | None` in `schemas.py`. -/
inductive PyVal where
  | none
  | str (s : String)
  | list (l : List PyVal)
  | dict (d : List (String × PyVal))

/-- Python truthiness for `PyVal`: `None` is falsy, strings, lists and dicts
are truthy exactly when non-empty. -/
def truthy : PyVal → Bool
  | .none => false
  | .str s => !s.isEmpty
  | .list l => !l.isEmpty
  | .dict d => !d.isEmpty

/-- The Python test `value is None`. -/
def PyVal.isNone : PyVal → Bool
  | .none => true
  | _ => false

/-- Schematic model of the Python builtin `str()` as used at
`msg.py:213` (`self._mimetext(str(content), subtype)`).  It is exact on
strings — the only case any verified statement evaluates — and schematic on
the other constructors. -/
def PyVal.render : PyVal → String
  | .none => "None"
  | .str s => s
  | .list _ => "[...]"
  | .dict _ => "\x7b...\x7d"

/-- Split a character list at every occurrence of the separator, keeping
empty segments, as the Python builtin str.split does with an explicit
separator. -/
def splitOnChar (sep : Char) : List Char → List (List Char)
  | [] => [[]]
  | c :: cs =>
    match splitOnChar sep cs with
    | [] => if c == sep then [[], []] else [[c]]
    | seg :: segs => if c == sep then [] :: seg :: segs else (c :: seg) :: segs

/-- Model of the pydantic `EmailStr` validator applied to each element of
`recipients`, `cc`, `bcc` and `reply_to` (third-party validation code, not
part of this repository): a syntactically valid address splits as
local-part@domain with a non-empty local part and a non-empty, dotted
domain. -/
def isValidEmail (s : String) : Bool :=
  match splitOnChar (Char.ofNat 64) s.toList with
  | [l, d] => !l.isEmpty && !d.isEmpty && d.contains (Char.ofNat 46)
  | _ => false

/-- Model of a werkzeug `FileStorage`: an in-memory content handle with a
filename and an optional content type.  (The custom attributes
`custom_disposition`/`custom_headers` set by `Message.attach` are omitted:
no code in `msg.py` ever reads them.) -/
structure FileStorage where
  content : String
  filename : String
  content_type : Option String
deriving DecidableEq, Repr

/-- The portion of an attachment metadata dictionary that the code ever
reads: the optional keys mime_type, mime_subtype and headers
(`msg.py:121-159`).  A value with all fields absent models the empty dict. -/
structure AttachMeta where
  mime_type : Option String
  mime_subtype : Option String
  headers : Option (List (String × String))
deriving DecidableEq, Repr

/-- An element of `Message.attachments` after construction.  The validator
(`schemas.py:105-159`) only ever produces `pair` entries — the
(FileStorage, metadata-or-None) tuples documented at `schemas.py:63-65` —
while `Message.attach` (`schemas.py:214`) appends the `FileStorage` object
itself, modelled by `bare`. -/
inductive AttachmentEntry where
  | pair (fs : FileStorage) (meta : Option AttachMeta)
  | bare (fs : FileStorage)
deriving DecidableEq, Repr

/-- The value found under the "file" key of a dict attachment source, or the
attachment source itself: a path string, a FileStorage, or anything else. -/
inductive RawFileValue where
  | path (p : String)
  | storage (fs : FileStorage)
  | other
deriving DecidableEq, Repr

/-- A raw attachment source as supplied to the `Message` constructor:
either a plain value, or a dict (optional "file" key plus metadata). -/
inductive RawAttachment where
  | plain (v : RawFileValue)
  | withMeta (file : Option RawFileValue) (meta : AttachMeta)
deriving DecidableEq, Repr

/-- Ambient environment: filesystem queries, file reading, the mimetype
guesser, and path resolution; `cwd` and `permittedRoots` exist only for the
specification-side path predicate. -/
structure Env where
  isRegularFile : String → Bool
  isReadable : String → Bool
  readFile : String → String
  guessType : String → Option String
  resolvePath : String → String
  cwd : String
  permittedRoots : List String

/-- Join character-list path components with slashes. -/
def joinSlash : List (List Char) → List Char
  | [] => []
  | [seg] => seg
  | seg :: rest => seg ++ Char.ofNat 47 :: joinSlash rest

/-- Model of the string round-trip through `pathlib.Path` performed at
`schemas.py:133/229` (`str(Path(p))`): duplicate slashes and single-dot
components are dropped, parent-directory components are kept, and an
absolute path keeps its leading slash. -/
def pathNorm (p : String) : String :=
  let comps := (splitOnChar (Char.ofNat 47) p.toList).filter
    (fun c => !c.isEmpty && !(c == [Char.ofNat 46]))
  let joined := joinSlash comps
  match p.toList with
  | c :: _ =>
    if c == Char.ofNat 47 then String.mk (Char.ofNat 47 :: joined)
    else if joined.isEmpty then "." else String.mk joined
  | [] => "."

/-- The Python substring test for a parent-directory token: two adjacent
dots somewhere in the character list. -/
def hasDotDot : List Char → Bool
  | c1 :: c2 :: rest =>
    (c1 == Char.ofNat 46 && c2 == Char.ofNat 46) || hasDotDot (c2 :: rest)
  | _ => false

/-- The Python substring test `".." in s`. -/
def containsDotDot (s : String) : Bool :=
  hasDotDot s.toList

/-- The Python substring test for an embedded null byte. -/
def containsNull (s : String) : Bool :=
  s.toList.any (fun c => c == Char.ofNat 0)

/-- Embedding of `_validate_attachment_path` (`schemas.py:218-242`): the
path must name a readable regular file and its normalized string form must
contain neither a parent-directory token nor a null byte.  Filesystem
exceptions that the source converts to False are absorbed into the
environment predicates. -/
def _validate_attachment_path (env : Env) (path : String) : Bool :=
  let path_str := pathNorm path
  env.isRegularFile path_str && env.isReadable path_str &&
    !(containsDotDot path_str || containsNull path_str)

/-- The `Path.name` of a normalized path: its last component. -/
def baseName (p : String) : String :=
  String.mk ((splitOnChar (Char.ofNat 47) p.toList).getLastD p.toList)

/-- Embedding of the `attachments` field validator `Message.validate_file`
(`schemas.py:105-159`): dict sources must carry a "file" key; string
sources must pass `_validate_attachment_path` and are opened, read and
paired with a guessed content type; FileStorage sources pass through;
anything else is rejected.  All successful entries become
`AttachmentEntry.pair`s. -/
def validate_file (env : Env) : List RawAttachment → Except String (List AttachmentEntry)
  | [] => .ok []
  | e :: rest =>
    let file_meta : Option AttachMeta :=
      match e with
      | .plain _ => none
      | .withMeta _ m => some m
    let file_value : Option RawFileValue :=
      match e with
      | .plain v => some v
      | .withMeta f _ => f
    match file_value with
    | none => .error "WrongFile: Missing file key in attachment dictionary"
    | some (.path p) =>
      if _validate_attachment_path env p then
        let norm := pathNorm p
        let fs : FileStorage :=
          { content := env.readFile norm
            filename := baseName norm
            content_type := env.guessType norm }
        match validate_file env rest with
        | .error err => .error err
        | .ok done => .ok (.pair fs file_meta :: done)
      else .error "WrongFile: Invalid file path for attachment"
    | some (.storage fs) =>
      match validate_file env rest with
      | .error err => .error err
      | .ok done => .ok (.pair fs file_meta :: done)
    | some .other => .error "WrongFile: Invalid attachment type"

/-- The validated message descriptor (`Message` of `schemas.py`). -/
structure Message where
  recipients : List String
  attachments : List AttachmentEntry
  subject : String
  body : PyVal
  template_body : PyVal
  template_params : PyVal
  html : PyVal
  cc : List String
  bcc : List String
  reply_to : List String
  charset : String
  subtype : Option String
  multipart_subtype : String

/-- Raw constructor arguments for `Message`, before pydantic validation. -/
structure RawMessage where
  recipients : List String
  attachments : List RawAttachment
  subject : String
  body : PyVal
  template_body : PyVal
  template_params : PyVal
  html : PyVal
  cc : List String
  bcc : List String
  reply_to : List String
  charset : String
  subtype : Option String
  multipart_subtype : String

/-- The members of `MultipartSubtypeEnum` (`schemas.py:22-39`). -/
def multipartSubtypes : List String :=
  ["mixed", "digest", "alternative", "related", "report", "signed",
   "encrypted", "form-data", "x-mixed-replace", "byterange"]

/-- Embedding of `Message` construction: pydantic validates the fields in
declaration order (recipients, attachments, ..., template_body,
template_params, ..., subtype), running the field validators of
`schemas.py`:
* each element of the recipient-like fields must be a valid email;
* `validate_file` processes the attachments;
* `validate_template_params` (`schemas.py:87-95`) copies `template_params`
  into `template_body` when the latter is None;
* `validate_subtype` (`schemas.py:97-103`) forces `subtype` to "html"
  whenever the (possibly copied) `template_body` is truthy;
* `multipart_subtype` must be a member of the enum. -/
def mkMessage (env : Env) (raw : RawMessage) : Except String Message :=
  if raw.recipients.all isValidEmail then
    match validate_file env raw.attachments with
    | .error err => .error err
    | .ok atts =>
      let tb :=
        if !raw.template_params.isNone && raw.template_body.isNone then
          raw.template_params
        else raw.template_body
      if raw.cc.all isValidEmail then
        if raw.bcc.all isValidEmail then
          if raw.reply_to.all isValidEmail then
            if multipartSubtypes.contains raw.multipart_subtype then
              .ok { recipients := raw.recipients
                    attachments := atts
                    subject := raw.subject
                    body := raw.body
                    template_body := tb
                    template_params := raw.template_params
                    html := raw.html
                    cc := raw.cc
                    bcc := raw.bcc
                    reply_to := raw.reply_to
                    charset := raw.charset
                    subtype := if truthy tb then some "html" else raw.subtype
                    multipart_subtype := raw.multipart_subtype }
            else .error "ValidationError: multipart_subtype"
          else .error "ValidationError: reply_to"
        else .error "ValidationError: bcc"
      else .error "ValidationError: cc"
  else .error "ValidationError: recipients"

/-- Embedding of `Message.add_recipient` (`schemas.py:161-172`): the
argument is appended to `recipients` unvalidated (`self.recipients.append`
bypasses pydantic validation) and the method reports success. -/
def Message.add_recipient (m : Message) (recipient : String) : Message :=
  { m with recipients := m.recipients ++ [recipient] }

/-- Embedding of `Message.attach` (`schemas.py:174-215`): the data is
wrapped in a FileStorage whose content type defaults to the guess from the
filename extension, and that FileStorage object itself — not a
(FileStorage, metadata) tuple — is appended to `attachments`.  The
`disposition` and `headers` arguments are stored as custom attributes on
the FileStorage that no later code reads. -/
def Message.attach (env : Env) (m : Message) (filename : String) (data : String)
    (content_type : Option String) (disposition : String)
    (headers : List (String × String)) : Message :=
  let ct : Option String :=
    match content_type with
    | some c => some c
    | none => env.guessType filename
  let fsob : FileStorage := { content := data, filename := filename, content_type := ct }
  { m with attachments := m.attachments ++ [.bare fsob] }

/-- A single MIME part of the built message: its content type, payload and
part-level headers. -/
structure MimePart where
  maintype : String
  subtype : String
  content : String
  headers : List (String × String)
deriving DecidableEq, Repr

/-- The built MIME multipart message (the result of `MailMsg._message`):
the container subtype and charset, the message-level headers in the order
the builder sets them, and the attached parts in order. -/
structure MimeMessage where
  multipart_subtype : String
  charset : String
  headers : List (String × String)
  parts : List MimePart
deriving DecidableEq, Repr

/-- Embedding of the MIME builder state `MailMsg` (`msg.py:22-96`): the
descriptor fields copied over by `__init__` plus the message id generated
once at construction by `make_msgid()`.  (`template_params` is dropped by
`__init__` because it is not an attribute of `MailMsg`.) -/
structure MailMsg where
  subject : String
  recipients : List String
  body : PyVal
  template_body : PyVal
  html : PyVal
  cc : List String
  bcc : List String
  reply_to : List String
  attachments : List AttachmentEntry
  charset : String
  subtype : Option String
  multipart_subtype : String
  msgId : String

/-- The `MailMsg(**message.model_dump())` step of `Mail.__prepare_message`
(`mail.py:254`): every `Message` field that is a `MailMsg` attribute is
copied; `msgId` is the freshly generated message id. -/
def mailMsgOfMessage (m : Message) (msgId : String) : MailMsg :=
  { subject := m.subject
    recipients := m.recipients
    body := m.body
    template_body := m.template_body
    html := m.html
    cc := m.cc
    bcc := m.bcc
    reply_to := m.reply_to
    attachments := m.attachments
    charset := m.charset
    subtype := m.subtype
    multipart_subtype := m.multipart_subtype
    msgId := msgId }

/-- Embedding of `MailMsg._mimetext` (`msg.py:98-109`): wraps a payload in
a text part with the message charset; a non-string payload makes the
underlying MIMEText constructor raise. -/
def MailMsg.mimetext (charset : String) (text : PyVal) (sub : String) :
    Except String MimePart :=
  match text with
  | .str s => .ok { maintype := "text", subtype := sub, content := s,
                    headers := [("charset", charset)] }
  | _ => .error "TypeError: MIMEText payload must be a string"

/-- The per-attachment step of `MailMsg.attach_file` (`msg.py:121-161`):
the part is tagged with the metadata mime_type/mime_subtype only when both
keys are present, and with application/octet-stream otherwise; the payload
is base64-encoded; Content-Disposition carries the filename (default
"attachment"); metadata headers are appended verbatim.  The FileStorage
content_type is never consulted. -/
def attachOne (file : FileStorage) (file_meta : Option AttachMeta) : MimePart :=
  let ts : String × String :=
    match file_meta with
    | some md =>
      match md.mime_type, md.mime_subtype with
      | some t, some s => (t, s)
      | _, _ => ("application", "octet-stream")
    | none => ("application", "octet-stream")
  let fname := if file.filename.isEmpty then "attachment" else file.filename
  let extra : List (String × String) :=
    match file_meta with
    | some md => md.headers.getD []
    | none => []
  { maintype := ts.1
    subtype := ts.2
    content := file.content
    headers := [("Content-Transfer-Encoding", "base64"),
                ("Content-Disposition", "attachment; filename=" ++ fname)] ++ extra }

/-- Embedding of `MailMsg.attach_file` (`msg.py:111-161`): each entry of
`attachments` is unpacked as a `(file, file_meta)` pair; an entry that is a
bare FileStorage (as produced by `Message.attach`) cannot be unpacked and
raises. -/
def MailMsg.attach_file : List AttachmentEntry → Except String (List MimePart)
  | [] => .ok []
  | .pair file file_meta :: rest =>
    match MailMsg.attach_file rest with
    | .error e => .error e
    | .ok parts => .ok (attachOne file file_meta :: parts)
  | .bare _ :: _ =>
    .error "TypeError: cannot unpack FileStorage entry into (file, file_meta)"

/-- The deterministic message-level headers set by `MailMsg._message` after
Date and Message-ID (`msg.py:182-195`): To and From always, Subject only if
non-empty, Cc/Bcc/Reply-To only if their lists are non-empty. -/
def MailMsg.fixedHeaders (m : MailMsg) (sender : String) : List (String × String) :=
  [("To", String.intercalate ", " m.recipients), ("From", sender)]
  ++ (if !m.subject.isEmpty then [("Subject", m.subject)] else [])
  ++ (if m.cc ≠ [] then [("Cc", String.intercalate ", " m.cc)] else [])
  ++ (if m.bcc ≠ [] then [("Bcc", String.intercalate ", " m.bcc)] else [])
  ++ (if m.reply_to ≠ [] then [("Reply-To", String.intercalate ", " m.reply_to)] else [])

/-- The body-content policy of `MailMsg._message` (`msg.py:197-220`),
returning the body parts in attach order together with the
deprecation-warning flag: a truthy `body` is attached as a plain part
first; then, if `template_body` or `body` is truthy: when `html` is not
truthy and `subtype` is "html", `(template_body or body)` is attached as a
part with subtype `(subtype or "html")` (warning when it relied on `body`);
when `template_body` is truthy (and `html` is), a ValueError is raised;
otherwise, a truthy `html` alone is attached as an html part. -/
def MailMsg.bodyParts (m : MailMsg) : Except String (List MimePart × Bool) := do
  let parts0 ←
    if truthy m.body then do
      let p ← MailMsg.mimetext m.charset m.body "plain"
      pure [p]
    else pure []
  if truthy m.template_body || truthy m.body then
    if truthy m.html = false ∧ m.subtype = some "html" then
      let warned := truthy m.body
      let content := if truthy m.template_body then m.template_body
                     else if truthy m.body then m.body else PyVal.str ""
      let sub := match m.subtype with
                 | some s => if s.isEmpty then "html" else s
                 | none => "html"
      pure (parts0 ++ [{ maintype := "text", subtype := sub,
                         content := content.render,
                         headers := [("charset", m.charset)] }], warned)
    else if truthy m.template_body then
      Except.error "ValueError: Cannot send both Jinja2 template content and HTML content"
    else
      pure (parts0, false)
  else if truthy m.html then do
    let p ← MailMsg.mimetext m.charset m.html "html"
    pure (parts0 ++ [p], false)
  else
    pure (parts0, false)

/-- Embedding of `MailMsg._message` (`msg.py:163-226`): assemble the
multipart container with its headers (Date and the stored Message-ID
first), the body parts chosen by `bodyParts`, and the attachment parts.
The Bool records whether a DeprecationWarning was emitted. -/
def MailMsg._message (m : MailMsg) (sender date : String) :
    Except String (MimeMessage × Bool) := do
  let bp ← m.bodyParts
  let attParts ← MailMsg.attach_file m.attachments
  pure ({ multipart_subtype := m.multipart_subtype
          charset := m.charset
          headers := ("Date", date) :: ("Message-ID", m.msgId) :: m.fixedHeaders sender
          parts := bp.1 ++ attParts }, bp.2)

/-- Embedding of `Mail.make_dict` (`mail.py:198-220`): a dict passes
through; any other template-data value makes `dict(data)` raise and is
re-raised as a ValueError.  (Lists never reach `make_dict`: both call
sites test `isinstance(template_body, list)` first.) -/
def make_dict : PyVal → Except String (List (String × PyVal))
  | .dict d => .ok d
  | _ => .error "ValueError: Unable to build template data dictionary"

/-- Embedding of `Mail.__prepare_message` (`mail.py:222-262`) as invoked by
`send_message`: `render` is `some renderFn` exactly when a template name
was given (the abstract `renderFn` maps the template data to the rendered
template output).  The descriptor mutations performed before building are
returned alongside the build result; a raise leaves the descriptor in its
state at that point.  The MIME message is built from the mutated
descriptor via `MailMsg` with the fresh `msgId` and the resolved `sender`
string. -/
def prepare_message (m : Message) (render : Option (PyVal → String))
    (sender date msgId : String) : Message × Except String (MimeMessage × Bool) :=
  match render with
  | Option.none => (m, (mailMsgOfMessage m msgId)._message sender date)
  | some renderFn =>
    let template_body := m.template_body
    if truthy template_body && !truthy m.html then
      match template_body with
      | .list _ =>
        let m2 := { m with template_body := .str (renderFn template_body),
                           subtype := some "html" }
        (m2, (mailMsgOfMessage m2 msgId)._message sender date)
      | _ =>
        match make_dict template_body with
        | .error e => (m, .error e)
        | .ok _ =>
          let m2 := { m with template_body := .str (renderFn template_body),
                             subtype := some "html" }
          (m2, (mailMsgOfMessage m2 msgId)._message sender date)
    else if truthy m.html then
      match template_body with
      | .list _ =>
        let m2 := { m with template_body := .str (renderFn template_body) }
        (m2, (mailMsgOfMessage m2 msgId)._message sender date)
      | _ =>
        if truthy template_body then
          match make_dict template_body with
          | .error e => (m, .error e)
          | .ok _ =>
            let m2 := { m with template_body := .str (renderFn template_body) }
            (m2, (mailMsgOfMessage m2 msgId)._message sender date)
        else (m, (mailMsgOfMessage m msgId)._message sender date)
    else (m, (mailMsgOfMessage m msgId)._message sender date)

/-- The connection settings consulted by `Connection` (`connection.py`):
the suppress-send test flag, the credential-use flag and the credentials
themselves.  (Host, port and TLS flags configure the external transport
and play no role in the verified lifecycle properties.) -/
structure ConnSettings where
  suppress_send : Bool
  use_credentials : Bool
  mail_username : Option String
  mail_password : Option String
deriving DecidableEq, Repr

/-- Python truthiness of an optional string setting. -/
def optTruthy : Option String → Bool
  | Option.none => false
  | some s => !s.isEmpty

/-- Outcome of one call into the external SMTP library (connect, login or
quit): success, a protocol-level SMTPException, or any other exception. -/
inductive SMTPOutcome where
  | ok
  | smtpError (e : String)
  | otherError (e : String)
deriving DecidableEq, Repr

/-- The connection-lifecycle state: whether a transport connection was
actually opened (`Connection._connected`). -/
structure ConnState where
  connected : Bool
deriving DecidableEq, Repr

/-- Embedding of `Connection._configure_connection`
(`connection.py:98-154`), parametric in the outcomes of the external
connect and login calls: when sending is suppressed nothing is opened;
otherwise the connection is opened (marking `_connected`), credentials are
checked and login performed, and every failure is translated into a
`ConnectionErrors` value. -/
def configure_connection (s : ConnSettings) (connectRes loginRes : SMTPOutcome) :
    Except String ConnState :=
  if s.suppress_send then .ok { connected := false }
  else
    match connectRes with
    | .ok =>
      if s.use_credentials then
        if optTruthy s.mail_username && optTruthy s.mail_password then
          match loginRes with
          | .ok => .ok { connected := true }
          | .smtpError e => .error ("ConnectionErrors: SMTP error: " ++ e)
          | .otherError e => .error ("ConnectionErrors: Unexpected connection error: " ++ e)
        else .error "ConnectionErrors: MAIL_USERNAME and MAIL_PASSWORD are required"
      else .ok { connected := true }
    | .smtpError e => .error ("ConnectionErrors: Could not connect to SMTP server: " ++ e)
    | .otherError e => .error ("ConnectionErrors: Unexpected connection error: " ++ e)

/-- Embedding of `Connection.__aexit__` (`connection.py:78-96`): when a
connection was opened (and sending is not suppressed) `quit()` is
attempted; an SMTPException from it is swallowed, any other exception
propagates, and in both cases the finally-block clears `_connected`.
Returns the final state, the propagated exception if any, and whether the
graceful shutdown was attempted. -/
def Connection.aexit (s : ConnSettings) (st : ConnState) (quitRes : SMTPOutcome) :
    ConnState × Option String × Bool :=
  if st.connected && !s.suppress_send then
    match quitRes with
    | .ok => ({ connected := false }, Option.none, true)
    | .smtpError _ => ({ connected := false }, Option.none, true)
    | .otherError e => ({ connected := false }, some e, true)
  else (st, Option.none, false)

/-- A non-empty string has isEmpty false. -/
theorem isEmpty_false_of_ne (s : String) (h : s ≠ "") : s.isEmpty = false := by
  cases he : s.isEmpty
  · rfl
  · exact absurd ((String.isEmpty_iff s).mp he) h

/-- Claim C4: for every validated descriptor in which only `body` is set (html and
template_body unset, subtype at its default none, no attachments), building
without a template yields a message whose parts are exactly one plain-text
part carrying `body`, the descriptor is returned unmodified (in particular
its subtype), and no deprecation warning is emitted. -/
theorem body_only_builds_single_plain_part (m : Message) (b sender date msgId : String)
    (hb : m.body = PyVal.str b) (hbne : b ≠ "")
    (htb : m.template_body = PyVal.none) (hh : m.html = PyVal.none)
    (hst : m.subtype = Option.none) (hatt : m.attachments = []) :
    ∃ M : MimeMessage,
      prepare_message m Option.none sender date msgId = (m, Except.ok (M, false)) ∧
      M.parts = [{ maintype := "text", subtype := "plain", content := b,
                   headers := [("charset", m.charset)] }] := by
  have hbe : b.isEmpty = false := isEmpty_false_of_ne b hbne
  refine ⟨{ multipart_subtype := m.multipart_subtype, charset := m.charset,
            headers := ("Date", date) :: ("Message-ID", msgId) ::
              (mailMsgOfMessage m msgId).fixedHeaders sender,
            parts := [{ maintype := "text", subtype := "plain", content := b,
                        headers := [("charset", m.charset)] }] }, ?_, rfl⟩
  simp [prepare_message, MailMsg._message, MailMsg.bodyParts, mailMsgOfMessage,
        MailMsg.attach_file, MailMsg.mimetext, hb, htb, hh, hst, hatt, truthy, hbe,
        Except.instMonad, Except.bind, Except.pure]

/-- Boolean success test for an Except value. -/
def exceptIsOk {α : Type} : Except String α → Bool
  | .ok _ => true
  | .error _ => false

/-- A trivial environment for concrete instances that involve no path
attachments: the filesystem is empty and the mimetype guesser knows
nothing. -/
def envTriv : Env :=
  { isRegularFile := fun _ => false
    isReadable := fun _ => false
    readFile := fun _ => ""
    guessType := fun _ => Option.none
    resolvePath := fun p => p
    cwd := "/srv/app"
    permittedRoots := [] }

/-- Concrete descriptor with only a body set. -/
def msgC4 : Message :=
  { recipients := ["alice@example.com"], attachments := [], subject := "hello",
    body := PyVal.str "hi", template_body := PyVal.none, template_params := PyVal.none,
    html := PyVal.none, cc := [], bcc := [], reply_to := [], charset := "utf-8",
    subtype := Option.none, multipart_subtype := "mixed" }

/-- Witness for claim C4: the body-only build property at a concrete descriptor. -/
theorem body_only_builds_single_plain_part_witness :
    ∃ M : MimeMessage,
      prepare_message msgC4 Option.none "sender@example.com" "DATE" "MID" =
        (msgC4, Except.ok (M, false)) ∧
      M.parts = [{ maintype := "text", subtype := "plain", content := "hi",
                   headers := [("charset", msgC4.charset)] }] :=
  body_only_builds_single_plain_part msgC4 "hi" "sender@example.com" "DATE" "MID"
    rfl (by decide) rfl rfl rfl rfl

/-- Claim C5: for every validated descriptor with `body` set, `subtype` "html" and
both `html` and `template_body` unset, the build attaches the body as a
plain-text part and then the same content again as an html part, emitting
the deprecation warning (the Bool component is true); attachment parts, if
any, follow. -/
theorem body_with_html_subtype_builds_two_parts (m : Message)
    (b sender date msgId : String) (aparts : List MimePart)
    (hb : m.body = PyVal.str b) (hbne : b ≠ "")
    (htb : m.template_body = PyVal.none) (hh : m.html = PyVal.none)
    (hst : m.subtype = some "html")
    (hatt : MailMsg.attach_file m.attachments = Except.ok aparts) :
    ∃ M : MimeMessage,
      prepare_message m Option.none sender date msgId = (m, Except.ok (M, true)) ∧
      M.parts = [{ maintype := "text", subtype := "plain", content := b,
                   headers := [("charset", m.charset)] },
                 { maintype := "text", subtype := "html", content := b,
                   headers := [("charset", m.charset)] }] ++ aparts := by
  have hbe : b.isEmpty = false := isEmpty_false_of_ne b hbne
  refine ⟨{ multipart_subtype := m.multipart_subtype, charset := m.charset,
            headers := ("Date", date) :: ("Message-ID", msgId) ::
              (mailMsgOfMessage m msgId).fixedHeaders sender,
            parts := [{ maintype := "text", subtype := "plain", content := b,
                        headers := [("charset", m.charset)] },
                      { maintype := "text", subtype := "html", content := b,
                        headers := [("charset", m.charset)] }] ++ aparts }, ?_, rfl⟩
  simp [prepare_message, MailMsg._message, MailMsg.bodyParts, mailMsgOfMessage,
        MailMsg.mimetext, PyVal.render, hb, htb, hh, hst, hatt, truthy, hbe,
        Except.instMonad, Except.bind, Except.pure]

/-- Concrete descriptor with a body and subtype "html". -/
def msgC5 : Message :=
  { recipients := ["alice@example.com"], attachments := [], subject := "hello",
    body := PyVal.str "hi", template_body := PyVal.none, template_params := PyVal.none,
    html := PyVal.none, cc := [], bcc := [], reply_to := [], charset := "utf-8",
    subtype := some "html", multipart_subtype := "mixed" }

/-- Witness for claim C5: the duplicated-body build property at a concrete
descriptor. -/
theorem body_with_html_subtype_builds_two_parts_witness :
    ∃ M : MimeMessage,
      prepare_message msgC5 Option.none "sender@example.com" "DATE" "MID" =
        (msgC5, Except.ok (M, true)) ∧
      M.parts = [{ maintype := "text", subtype := "plain", content := "hi",
                   headers := [("charset", msgC5.charset)] },
                 { maintype := "text", subtype := "html", content := "hi",
                   headers := [("charset", msgC5.charset)] }] ++ [] :=
  body_with_html_subtype_builds_two_parts msgC5 "hi" "sender@example.com" "DATE" "MID" []
    rfl (by decide) rfl rfl rfl rfl

/-- Projection of a build result onto its stable observable: the
message-level headers with the volatile Date and Message-ID entries
removed, and the per-part header lists. -/
def stripVolatile :
    Except String (MimeMessage × Bool) →
      Except String (List (String × String) × List (List (String × String)))
  | .error e => .error e
  | .ok (M, _) =>
    .ok (M.headers.filter (fun h => h.1 ≠ "Date" && h.1 ≠ "Message-ID"),
         M.parts.map MimePart.headers)

/-- Claim C6: building the same descriptor twice with the same sender — each
build getting its own freshly generated Date and Message-ID — produces the
same headers apart from Date and Message-ID: the remaining message-level
headers (To, From, Subject, Cc, Bcc, Reply-To) and every per-part header
list coincide. -/
theorem build_headers_stable (m : Message) (sender d1 d2 i1 i2 : String) :
    stripVolatile ((mailMsgOfMessage m i1)._message sender d1) =
    stripVolatile ((mailMsgOfMessage m i2)._message sender d2) := by
  unfold MailMsg._message
  cases hbp : (mailMsgOfMessage m i1).bodyParts with
  | error e =>
    have hbp2 : (mailMsgOfMessage m i2).bodyParts = Except.error e := hbp
    simp [hbp, hbp2, stripVolatile, Except.instMonad, Except.bind]
  | ok bp =>
    have hbp2 : (mailMsgOfMessage m i2).bodyParts = Except.ok bp := hbp
    cases hat : MailMsg.attach_file (mailMsgOfMessage m i1).attachments with
    | error e2 =>
      have hat2 : MailMsg.attach_file (mailMsgOfMessage m i2).attachments =
          Except.error e2 := hat
      simp [hbp, hbp2, hat, hat2, stripVolatile, Except.instMonad, Except.bind]
    | ok ap =>
      have hat2 : MailMsg.attach_file (mailMsgOfMessage m i2).attachments =
          Except.ok ap := hat
      have hfh : (mailMsgOfMessage m i1).fixedHeaders sender =
          (mailMsgOfMessage m i2).fixedHeaders sender := rfl
      simp [hbp, hbp2, hat, hat2, stripVolatile, Except.instMonad, Except.bind,
            Except.pure, hfh, List.filter]

/-- Replaces the content type recorded on the FileStorage of an attachment
entry (the value `validate_file` fills from the extension-based guess). -/
def overrideContentType (ct : Option String) : AttachmentEntry → AttachmentEntry
  | .pair fs meta => .pair { fs with content_type := ct } meta
  | .bare fs => .bare { fs with content_type := ct }

/-- Claim C10: an attachment part is tagged with the metadata mime type exactly
when the metadata carries both mime_type and mime_subtype; with either key
absent (or no metadata at all) the part is application/octet-stream; and
the whole per-attachment step is insensitive to the content type stored on
the FileStorage, so the extension-based guess recorded during validation
is never used by the builder. -/
theorem attachment_mime_type_from_meta_only :
    (∀ (fs : FileStorage) (md : AttachMeta) (t s : String),
        md.mime_type = some t → md.mime_subtype = some s →
        (attachOne fs (some md)).maintype = t ∧ (attachOne fs (some md)).subtype = s) ∧
    (∀ (fs : FileStorage) (md : AttachMeta),
        md.mime_type = Option.none ∨ md.mime_subtype = Option.none →
        (attachOne fs (some md)).maintype = "application" ∧
        (attachOne fs (some md)).subtype = "octet-stream") ∧
    (∀ fs : FileStorage,
        (attachOne fs Option.none).maintype = "application" ∧
        (attachOne fs Option.none).subtype = "octet-stream") ∧
    (∀ (entries : List AttachmentEntry) (ct : Option String),
        MailMsg.attach_file (entries.map (overrideContentType ct)) =
        MailMsg.attach_file entries) := by
  refine ⟨?_, ?_, ?_, ?_⟩
  · intro fs md t s h1 h2
    simp [attachOne, h1, h2]
  · intro fs md h
    rcases h with h | h
    · cases h2 : md.mime_subtype <;> simp [attachOne, h, h2]
    · cases h1 : md.mime_type <;> simp [attachOne, h, h1]
  · intro fs
    simp [attachOne]
  · intro entries ct
    induction entries with
    | nil => rfl
    | cons e rest ih =>
      cases e with
      | pair fs meta => simp [MailMsg.attach_file, overrideContentType, ih, attachOne]
      | bare fs => simp [MailMsg.attach_file, overrideContentType]

/-- Witness for claim C10: the metadata-driven mime-type property at concrete
attachments. -/
theorem attachment_mime_type_from_meta_only_witness :
    ((attachOne { content := "DATA", filename := "a.png", content_type := some "image/png" }
        (some { mime_type := some "image", mime_subtype := some "png",
                headers := Option.none })).maintype = "image" ∧
      (attachOne { content := "DATA", filename := "a.png", content_type := some "image/png" }
        (some { mime_type := some "image", mime_subtype := some "png",
                headers := Option.none })).subtype = "png") ∧
    ((attachOne { content := "DATA", filename := "a.png", content_type := some "image/png" }
        (some { mime_type := some "image", mime_subtype := Option.none,
                headers := Option.none })).maintype = "application" ∧
      (attachOne { content := "DATA", filename := "a.png", content_type := some "image/png" }
        (some { mime_type := some "image", mime_subtype := Option.none,
                headers := Option.none })).subtype = "octet-stream") ∧
    MailMsg.attach_file
        ([AttachmentEntry.pair
            { content := "DATA", filename := "a.png", content_type := some "image/png" }
            Option.none].map (overrideContentType Option.none)) =
      MailMsg.attach_file
        [AttachmentEntry.pair
          { content := "DATA", filename := "a.png", content_type := some "image/png" }
          Option.none] :=
  ⟨attachment_mime_type_from_meta_only.1
      { content := "DATA", filename := "a.png", content_type := some "image/png" }
      { mime_type := some "image", mime_subtype := some "png", headers := Option.none }
      "image" "png" rfl rfl,
    attachment_mime_type_from_meta_only.2.1
      { content := "DATA", filename := "a.png", content_type := some "image/png" }
      { mime_type := some "image", mime_subtype := Option.none, headers := Option.none }
      (Or.inr rfl),
    attachment_mime_type_from_meta_only.2.2.2
      [AttachmentEntry.pair
        { content := "DATA", filename := "a.png", content_type := some "image/png" }
        Option.none]
      Option.none⟩

/-- States reachable from a successful acquisition never combine an open
connection with suppressed sending: `_connected` is only set when
`SUPPRESS_SEND` is falsy. -/
theorem configure_connected_not_suppressed (s : ConnSettings) (cr lr : SMTPOutcome)
    (st : ConnState) (h : configure_connection s cr lr = Except.ok st)
    (hc : st.connected = true) : s.suppress_send = false := by
  by_cases hs : s.suppress_send
  · simp [configure_connection, hs] at h
    rw [← h] at hc
    simp at hc
  · simpa using hs

/-- Claim C9: for every session state produced by a successful acquisition and
every outcome of the shutdown call, releasing the scope leaves the session
marked as not connected; if a connection was actually opened the graceful
shutdown is attempted; and a protocol-level (SMTP) error raised by the
shutdown is swallowed rather than propagated. -/
theorem connection_release_clean (s : ConnSettings) (cr lr q : SMTPOutcome)
    (st : ConnState) (h : configure_connection s cr lr = Except.ok st) :
    (Connection.aexit s st q).1.connected = false ∧
    (st.connected = true → (Connection.aexit s st q).2.2 = true) ∧
    (∀ e : String, q = SMTPOutcome.smtpError e →
      (Connection.aexit s st q).2.1 = Option.none) := by
  by_cases hc : st.connected
  · have hs : s.suppress_send = false := configure_connected_not_suppressed s cr lr st h hc
    cases q <;> simp [Connection.aexit, hc, hs]
  · have hc2 : st.connected = false := by simpa using hc
    refine ⟨by simp [Connection.aexit, hc2], ?_, ?_⟩
    · intro hcon
      rw [hcon] at hc2
      cases hc2
    · intro e _
      simp [Connection.aexit, hc2]

/-- Witness for claim C9: the release property: suppressed-send settings with a
successful connect/login acquisition and a failing shutdown. -/
theorem connection_release_clean_witness :
    (Connection.aexit
        { suppress_send := false, use_credentials := true,
          mail_username := some "user", mail_password := some "pass" }
        { connected := true } (SMTPOutcome.smtpError "quit failed")).1.connected = false ∧
    ({ connected := true : ConnState }.connected = true →
      (Connection.aexit
        { suppress_send := false, use_credentials := true,
          mail_username := some "user", mail_password := some "pass" }
        { connected := true } (SMTPOutcome.smtpError "quit failed")).2.2 = true) ∧
    (∀ e : String, SMTPOutcome.smtpError "quit failed" = SMTPOutcome.smtpError e →
      (Connection.aexit
        { suppress_send := false, use_credentials := true,
          mail_username := some "user", mail_password := some "pass" }
        { connected := true } (SMTPOutcome.smtpError "quit failed")).2.1 = Option.none) :=
  connection_release_clean
    { suppress_send := false, use_credentials := true,
      mail_username := some "user", mail_password := some "pass" }
    SMTPOutcome.ok SMTPOutcome.ok (SMTPOutcome.smtpError "quit failed")
    { connected := true } rfl

/-- The invariant claimed for recipient-like fields: every element of
recipients, cc, bcc and reply_to is a syntactically valid email address. -/
def recipientInvariant (m : Message) : Bool :=
  (m.recipients ++ m.cc ++ m.bcc ++ m.reply_to).all isValidEmail

/-- Raw constructor input with one valid recipient and nothing else. -/
def rawC3 : RawMessage :=
  { recipients := ["alice@example.com"], attachments := [], subject := "",
    body := PyVal.none, template_body := PyVal.none, template_params := PyVal.none,
    html := PyVal.none, cc := [], bcc := [], reply_to := [], charset := "utf-8",
    subtype := Option.none, multipart_subtype := "mixed" }

/-- The descriptor `rawC3` constructs. -/
def msgC3 : Message :=
  { recipients := ["alice@example.com"], attachments := [], subject := "",
    body := PyVal.none, template_body := PyVal.none, template_params := PyVal.none,
    html := PyVal.none, cc := [], bcc := [], reply_to := [], charset := "utf-8",
    subtype := Option.none, multipart_subtype := "mixed" }

/-- Counterexample to claim C3, that `add_recipient` preserves the
email-validity invariant for every argument: on the reachable descriptor
`msgC3`, `add_recipient "notanemail"` succeeds and appends a string that is
not a syntactically valid address, breaking the invariant. -/
theorem add_recipient_skips_validation_counterexample :
    mkMessage envTriv rawC3 = Except.ok msgC3 ∧
    (msgC3.add_recipient "notanemail").recipients =
      ["alice@example.com", "notanemail"] ∧
    isValidEmail "notanemail" = false ∧
    recipientInvariant (msgC3.add_recipient "notanemail") = false :=
  ⟨rfl, rfl, rfl, rfl⟩

/-- Claim C3 as amended: construction establishes the email-validity invariant on
all recipient-like fields, and `add_recipient` — which appends its argument
without any validation — preserves the invariant exactly when the argument
is itself a syntactically valid address, in which case it appends that one
address leaving existing entries untouched. -/
theorem recipient_invariant_construction_and_valid_add :
    (∀ (env : Env) (raw : RawMessage) (m : Message),
        mkMessage env raw = Except.ok m → recipientInvariant m = true) ∧
    (∀ (m : Message) (a : String),
        recipientInvariant m = true → isValidEmail a = true →
        recipientInvariant (m.add_recipient a) = true ∧
        (m.add_recipient a).recipients = m.recipients ++ [a]) := by
  constructor
  · intro env raw m h
    unfold mkMessage at h
    by_cases hrec : raw.recipients.all isValidEmail = true
    swap
    · simp [hrec] at h
    cases hval : validate_file env raw.attachments with
    | error e => rw [hval] at h; simp [hrec] at h
    | ok atts =>
      rw [hval] at h
      by_cases hcc : raw.cc.all isValidEmail = true
      swap
      · simp [hrec, hcc] at h
      by_cases hbcc : raw.bcc.all isValidEmail = true
      swap
      · simp [hrec, hcc, hbcc] at h
      by_cases hrt : raw.reply_to.all isValidEmail = true
      swap
      · simp [hrec, hcc, hbcc, hrt] at h
      by_cases hms : raw.multipart_subtype ∈ multipartSubtypes
      swap
      · simp [hrec, hcc, hbcc, hrt, hms] at h
      simp [hrec, hcc, hbcc, hrt, hms] at h
      subst h
      simp [recipientInvariant, List.all_append, hrec, hcc, hbcc, hrt]
  · intro m a hm ha
    constructor
    · simp only [recipientInvariant, Message.add_recipient, List.all_append,
                 Bool.and_eq_true] at hm ⊢
      simp [hm, ha, List.all_append]
    · rfl

/-- Witness for claim C3 as amended: the recipient-invariant property: construction of
`msgC3` establishes the invariant, and adding a valid address preserves
it. -/
theorem recipient_invariant_construction_and_valid_add_witness :
    recipientInvariant msgC3 = true ∧
    (recipientInvariant (msgC3.add_recipient "bob@example.org") = true ∧
      (msgC3.add_recipient "bob@example.org").recipients =
        msgC3.recipients ++ ["bob@example.org"]) :=
  ⟨recipient_invariant_construction_and_valid_add.1 envTriv rawC3 msgC3 rfl,
   recipient_invariant_construction_and_valid_add.2 msgC3 "bob@example.org"
     (by decide) (by decide)⟩

/-- Containment test used by the specification-side predicate: the resolved
path equals the root or lies strictly beneath it. -/
def underDir (p root : String) : Bool :=
  p == root || (root.toList ++ [Char.ofNat 47]).isPrefixOf p.toList

/-- Acceptance condition for a string attachment source as the
specification words it (a readable regular file, no parent-directory
traversal token, no null byte, and a resolved path under the process
working directory or an explicitly permitted root).  This definition
follows the wording of the specification so it can be compared with the
source-derived `_validate_attachment_path`. -/
def spec_attachment_path_ok (env : Env) (p : String) : Bool :=
  let path_str := pathNorm p
  env.isRegularFile path_str && env.isReadable path_str &&
    !containsDotDot path_str && !containsNull path_str &&
    (underDir (env.resolvePath path_str) env.cwd ||
      env.permittedRoots.any (fun r => underDir (env.resolvePath path_str) r))

/-- An environment whose filesystem contains one readable regular file,
/etc/passwd, outside the working directory /srv/app, with no explicitly
permitted roots. -/
def envC2 : Env :=
  { isRegularFile := fun p => p == "/etc/passwd"
    isReadable := fun p => p == "/etc/passwd"
    readFile := fun _ => "root:x:0:0:root:/root:/bin/sh"
    guessType := fun _ => Option.none
    resolvePath := fun p => p
    cwd := "/srv/app"
    permittedRoots := [] }

/-- Raw constructor input attaching /etc/passwd by path. -/
def rawC2 : RawMessage :=
  { recipients := ["alice@example.com"],
    attachments := [RawAttachment.plain (RawFileValue.path "/etc/passwd")],
    subject := "", body := PyVal.none, template_body := PyVal.none,
    template_params := PyVal.none, html := PyVal.none, cc := [], bcc := [],
    reply_to := [], charset := "utf-8", subtype := Option.none,
    multipart_subtype := "mixed" }

/-- Counterexample to claim C2, the claimed acceptance condition for string
attachment paths: /etc/passwd is a readable regular file whose resolved
path does not lie under the working directory (nor any permitted root),
yet `_validate_attachment_path` accepts it and descriptor construction
succeeds — the code performs no working-directory confinement check. -/
theorem path_validation_ignores_cwd_counterexample :
    _validate_attachment_path envC2 "/etc/passwd" = true ∧
    spec_attachment_path_ok envC2 "/etc/passwd" = false ∧
    exceptIsOk (mkMessage envC2 rawC2) = true :=
  ⟨rfl, rfl, rfl⟩

/-- Claim C2 as amended: descriptor validation accepts a string attachment path if
and only if it names a readable regular file whose normalized string form
contains no parent-directory token and no null byte; any other string path
is rejected at construction time with the WrongFile error (before any
connection can be made).  No containment check against the working
directory is performed. -/
theorem path_attachment_accepted_iff (env : Env) (p : String) (raw : RawMessage)
    (hatt : raw.attachments = [RawAttachment.plain (RawFileValue.path p)])
    (hrec : raw.recipients.all isValidEmail = true)
    (hcc : raw.cc.all isValidEmail = true)
    (hbcc : raw.bcc.all isValidEmail = true)
    (hrt : raw.reply_to.all isValidEmail = true)
    (hms : raw.multipart_subtype ∈ multipartSubtypes) :
    ((∃ m : Message, mkMessage env raw = Except.ok m) ↔
      (env.isRegularFile (pathNorm p) = true ∧ env.isReadable (pathNorm p) = true ∧
        containsDotDot (pathNorm p) = false ∧ containsNull (pathNorm p) = false)) ∧
    (_validate_attachment_path env p = false →
      mkMessage env raw = Except.error "WrongFile: Invalid file path for attachment") := by
  have hbool : _validate_attachment_path env p =
      (env.isRegularFile (pathNorm p) && env.isReadable (pathNorm p) &&
        !(containsDotDot (pathNorm p) || containsNull (pathNorm p))) := rfl
  have hval : validate_file env raw.attachments =
      (if _validate_attachment_path env p then
        Except.ok [AttachmentEntry.pair
          { content := env.readFile (pathNorm p), filename := baseName (pathNorm p),
            content_type := env.guessType (pathNorm p) } Option.none]
      else Except.error "WrongFile: Invalid file path for attachment") := by
    rw [hatt]; rfl
  by_cases hv : _validate_attachment_path env p = true
  · have hcond : env.isRegularFile (pathNorm p) = true ∧
        env.isReadable (pathNorm p) = true ∧
        containsDotDot (pathNorm p) = false ∧ containsNull (pathNorm p) = false := by
      rw [hbool] at hv
      simp only [Bool.and_eq_true, Bool.not_eq_true', Bool.or_eq_false_iff] at hv
      exact ⟨hv.1.1, hv.1.2, hv.2.1, hv.2.2⟩
    refine ⟨⟨fun _ => hcond, fun _ => ?_⟩, fun hfalse => by rw [hv] at hfalse; cases hfalse⟩
    have hok : ∃ m : Message, mkMessage env raw = Except.ok m := by
      unfold mkMessage
      rw [hval, if_pos hv]
      simp [hrec, hcc, hbcc, hrt, hms]
    exact hok
  · have hv2 : _validate_attachment_path env p = false := by simpa using hv
    have herr : mkMessage env raw =
        Except.error "WrongFile: Invalid file path for attachment" := by
      unfold mkMessage
      rw [hval, if_neg hv]
      simp [hrec]
    refine ⟨⟨?_, ?_⟩, fun _ => herr⟩
    · intro hex
      obtain ⟨m, hm⟩ := hex
      rw [herr] at hm
      cases hm
    · intro hcond
      obtain ⟨h1, h2, h3, h4⟩ := hcond
      rw [hbool, h1, h2, h3, h4] at hv2
      simp at hv2

/-- Witness for claim C2 as amended: the path-acceptance property: in `envC2` the
readable file /etc/passwd is accepted. -/
theorem path_attachment_accepted_iff_witness :
    ((∃ m : Message, mkMessage envC2 rawC2 = Except.ok m) ↔
      (envC2.isRegularFile (pathNorm "/etc/passwd") = true ∧
        envC2.isReadable (pathNorm "/etc/passwd") = true ∧
        containsDotDot (pathNorm "/etc/passwd") = false ∧
        containsNull (pathNorm "/etc/passwd") = false)) ∧
    (_validate_attachment_path envC2 "/etc/passwd" = false →
      mkMessage envC2 rawC2 =
        Except.error "WrongFile: Invalid file path for attachment") :=
  path_attachment_accepted_iff envC2 "/etc/passwd" rawC2 rfl (by decide) (by decide)
    (by decide) (by decide) (by decide)

/-- Raw constructor input supplying `template_params` while `template_body`
is the empty string — an empty-but-present value rather than None. -/
def rawC8 : RawMessage :=
  { recipients := ["alice@example.com"], attachments := [], subject := "",
    body := PyVal.none, template_body := PyVal.str "",
    template_params := PyVal.dict [("name", PyVal.str "Andrej")],
    html := PyVal.none, cc := [], bcc := [], reply_to := [], charset := "utf-8",
    subtype := Option.none, multipart_subtype := "mixed" }

/-- The descriptor `rawC8` constructs: the alias copy does not fire. -/
def msgC8 : Message :=
  { recipients := ["alice@example.com"], attachments := [], subject := "",
    body := PyVal.none, template_body := PyVal.str "",
    template_params := PyVal.dict [("name", PyVal.str "Andrej")],
    html := PyVal.none, cc := [], bcc := [], reply_to := [], charset := "utf-8",
    subtype := Option.none, multipart_subtype := "mixed" }

/-- Counterexample to claim C8, that supplying `template_params` with an
empty `template_body` copies the params into `template_body`: the
validator tests template_body for None, not for emptiness, so with
template_body the empty string (empty, hence falsy, but not None) the copy
does not take effect in the constructed model. -/
theorem template_params_copy_skipped_counterexample :
    mkMessage envTriv rawC8 = Except.ok msgC8 ∧
    truthy rawC8.template_body = false ∧
    rawC8.template_params.isNone = false ∧
    msgC8.template_body = PyVal.str "" ∧
    msgC8.template_body ≠ rawC8.template_params :=
  ⟨rfl, rfl, rfl, rfl, by simp [msgC8, rawC8]⟩

/-- Claim C8 as amended: if `template_params` is supplied (not None) and
`template_body` is None (unset), the constructed descriptor's
`template_body` equals the supplied `template_params`. -/
theorem template_params_alias_when_unset (env : Env) (raw : RawMessage) (m : Message)
    (hp : raw.template_params.isNone = false) (hb : raw.template_body = PyVal.none)
    (h : mkMessage env raw = Except.ok m) :
    m.template_body = raw.template_params := by
  unfold mkMessage at h
  by_cases hrec : raw.recipients.all isValidEmail = true
  swap
  · simp [hrec] at h
  cases hval : validate_file env raw.attachments with
  | error e => rw [hval] at h; simp [hrec] at h
  | ok atts =>
    rw [hval] at h
    by_cases hcc : raw.cc.all isValidEmail = true
    swap
    · simp [hrec, hcc] at h
    by_cases hbcc : raw.bcc.all isValidEmail = true
    swap
    · simp [hrec, hcc, hbcc] at h
    by_cases hrt : raw.reply_to.all isValidEmail = true
    swap
    · simp [hrec, hcc, hbcc, hrt] at h
    by_cases hms : raw.multipart_subtype ∈ multipartSubtypes
    swap
    · simp [hrec, hcc, hbcc, hrt, hms] at h
    simp [hrec, hcc, hbcc, hrt, hms] at h
    subst h
    show (if raw.template_params.isNone = false ∧ raw.template_body.isNone = true
          then raw.template_params else raw.template_body) = raw.template_params
    rw [if_pos ⟨hp, by rw [hb]; rfl⟩]

/-- Raw constructor input supplying `template_params` with `template_body`
left unset. -/
def rawC8w : RawMessage :=
  { recipients := ["alice@example.com"], attachments := [], subject := "",
    body := PyVal.none, template_body := PyVal.none,
    template_params := PyVal.dict [("name", PyVal.str "Andrej")],
    html := PyVal.none, cc := [], bcc := [], reply_to := [], charset := "utf-8",
    subtype := Option.none, multipart_subtype := "mixed" }

/-- The descriptor `rawC8w` constructs: the alias copy fires and the
forced html subtype follows. -/
def msgC8w : Message :=
  { recipients := ["alice@example.com"], attachments := [], subject := "",
    body := PyVal.none, template_body := PyVal.dict [("name", PyVal.str "Andrej")],
    template_params := PyVal.dict [("name", PyVal.str "Andrej")],
    html := PyVal.none, cc := [], bcc := [], reply_to := [], charset := "utf-8",
    subtype := some "html", multipart_subtype := "mixed" }

/-- Witness for claim C8 as amended: the alias property at a concrete construction. -/
theorem template_params_alias_when_unset_witness :
    msgC8w.template_body = rawC8w.template_params :=
  template_params_alias_when_unset envTriv rawC8w msgC8w rfl rfl rfl

/-- Raw constructor input with both template data and raw html content. -/
def rawC1 : RawMessage :=
  { recipients := ["alice@example.com"], attachments := [], subject := "t",
    body := PyVal.none, template_body := PyVal.dict [("k", PyVal.str "v")],
    template_params := PyVal.none, html := PyVal.str "<p>hi</p>", cc := [], bcc := [],
    reply_to := [], charset := "utf-8", subtype := Option.none,
    multipart_subtype := "mixed" }

/-- The descriptor `rawC1` constructs (subtype forced to html by the truthy
template_body). -/
def msgC1 : Message :=
  { recipients := ["alice@example.com"], attachments := [], subject := "t",
    body := PyVal.none, template_body := PyVal.dict [("k", PyVal.str "v")],
    template_params := PyVal.none, html := PyVal.str "<p>hi</p>", cc := [], bcc := [],
    reply_to := [], charset := "utf-8", subtype := some "html",
    multipart_subtype := "mixed" }

/-- Counterexample to claim C1, that a descriptor with both template_body
and html set always fails with the content-conflict error when sent with a
template: when the template renders to the empty string, the rendered
template_body becomes falsy, the builder takes the html branch, and the
send succeeds with no error. -/
theorem conflict_error_skipped_on_empty_render_counterexample :
    mkMessage envTriv rawC1 = Except.ok msgC1 ∧
    truthy msgC1.template_body = true ∧
    truthy msgC1.html = true ∧
    exceptIsOk
      (prepare_message msgC1 (some (fun _ => "")) "sender@example.com" "DATE" "MID").2 =
      true ∧
    (prepare_message msgC1 (some (fun _ => "")) "sender@example.com" "DATE" "MID").1.body =
      PyVal.none :=
  ⟨rfl, rfl, rfl, rfl, rfl⟩

/-- Template data of the shapes `__prepare_message` can render: a sequence
or a mapping. -/
def isTemplateData : PyVal → Bool
  | .list _ => true
  | .dict _ => true
  | _ => false

/-- Claim C1 as amended: for every descriptor with truthy template data
(list or mapping) in `template_body` and truthy `html`, and `body` unset,
sending with a template whose rendered output is non-empty fails with the
content-conflict ValueError, and the descriptor's `body` is still unset
after the failed call. -/
theorem conflict_error_on_nonempty_render (m : Message) (render : PyVal → String)
    (sender date msgId : String)
    (htd : isTemplateData m.template_body = true)
    (htb : truthy m.template_body = true)
    (hh : truthy m.html = true) (hb : m.body = PyVal.none)
    (hr : render m.template_body ≠ "") :
    (prepare_message m (some render) sender date msgId).2 =
      Except.error "ValueError: Cannot send both Jinja2 template content and HTML content" ∧
    (prepare_message m (some render) sender date msgId).1.body = PyVal.none := by
  have hre : (render m.template_body).isEmpty = false := isEmpty_false_of_ne _ hr
  obtain ⟨rec, atts, subj, bdy, tb, tp, ht, lcc, lbcc, lrt, cs, st, ms⟩ := m
  simp only at htd htb hh hb hre ⊢
  subst hb
  have tnone : truthy PyVal.none = false := rfl
  cases tb with
  | none => simp [isTemplateData] at htd
  | str s => simp [isTemplateData] at htd
  | list l =>
    have trend : truthy (PyVal.str (render (PyVal.list l))) = true := by
      simp [truthy, hre]
    constructor <;>
      simp [prepare_message, htb, hh, trend, tnone, MailMsg._message,
            MailMsg.bodyParts, mailMsgOfMessage, MailMsg.mimetext,
            Except.instMonad, Except.bind, Except.pure]
  | dict d =>
    have trend : truthy (PyVal.str (render (PyVal.dict d))) = true := by
      simp [truthy, hre]
    constructor <;>
      simp [prepare_message, htb, hh, trend, tnone, make_dict, MailMsg._message,
            MailMsg.bodyParts, mailMsgOfMessage, MailMsg.mimetext,
            Except.instMonad, Except.bind, Except.pure]

/-- Witness for claim C1 as amended: the content-conflict property at a concrete
descriptor and a non-empty-rendering template. -/
theorem conflict_error_on_nonempty_render_witness :
    (prepare_message msgC1 (some (fun _ => "RENDERED")) "sender@example.com"
        "DATE" "MID").2 =
      Except.error "ValueError: Cannot send both Jinja2 template content and HTML content" ∧
    (prepare_message msgC1 (some (fun _ => "RENDERED")) "sender@example.com"
        "DATE" "MID").1.body = PyVal.none :=
  conflict_error_on_nonempty_render msgC1 (fun _ => "RENDERED")
    "sender@example.com" "DATE" "MID" rfl rfl rfl rfl (by decide)

/-- Raw constructor input for a plain message with no attachments. -/
def rawC7 : RawMessage :=
  { recipients := ["to@example.com"], attachments := [], subject := "testing",
    body := PyVal.str "test mail body", template_body := PyVal.none,
    template_params := PyVal.none, html := PyVal.none, cc := [], bcc := [],
    reply_to := [], charset := "utf-8", subtype := Option.none,
    multipart_subtype := "mixed" }

/-- The descriptor `rawC7` constructs. -/
def msgC7 : Message :=
  { recipients := ["to@example.com"], attachments := [], subject := "testing",
    body := PyVal.str "test mail body", template_body := PyVal.none,
    template_params := PyVal.none, html := PyVal.none, cc := [], bcc := [],
    reply_to := [], charset := "utf-8", subtype := Option.none,
    multipart_subtype := "mixed" }

/-- The descriptor after `attach("attachement_1.txt", data)`. -/
def msgC7attached : Message :=
  Message.attach envTriv msgC7 "attachement_1.txt" "file test content"
    Option.none "attachment" []

/-- Claim C7 (code bug): `Message.attach` appends a bare FileStorage instead of the
(content-handle, metadata-or-none) pair documented for the attachments
field, so the MIME builder's per-attachment unpacking fails on any
descriptor extended via `attach`: the build of such a descriptor raises
instead of succeeding. -/
theorem attach_appends_bare_entry_breaking_builder :
    mkMessage envTriv rawC7 = Except.ok msgC7 ∧
    msgC7attached.attachments =
      [AttachmentEntry.bare { content := "file test content",
                              filename := "attachement_1.txt",
                              content_type := Option.none }] ∧
    MailMsg.attach_file msgC7attached.attachments =
      Except.error "TypeError: cannot unpack FileStorage entry into (file, file_meta)" ∧
    exceptIsOk
      ((mailMsgOfMessage msgC7attached "MID")._message "sender@example.com" "DATE") =
      false :=
  ⟨rfl, rfl, rfl, rfl⟩
